import Mathlib

/-!
Verification of the controller registration and WebSocket connection-management
subsystem of the repository (`pyrails/controllers.py`), shallowly embedded.

Python dictionaries are modelled as association lists (key/value pairs, keys
kept unique by the update operations).  `defaultdict` subscript access, which
inserts the default value when the key is absent, is modelled by `getD`, whose
second component is the possibly-extended dictionary.  Python `list.remove`
(first occurrence) is `List.erase`; Python `set.add` / `set.discard` are
`pyAdd` / `pyDiscard` (the manager's room sets never hold duplicates, so
removing every copy coincides with removing the one element).
-/

section PyDict

variable {α β : Type} [DecidableEq α]

/-- Dictionary lookup with a default: `d.get(k, default)` / reading an existing entry. -/
def lookupD (m : List (α × β)) (k : α) (d : β) : β :=
  match m with
  | [] => d
  | (k1, v) :: rest => if k1 = k then v else lookupD rest k d

/-- Key membership test: `k in d`. -/
def hasKeyD (m : List (α × β)) (k : α) : Bool :=
  match m with
  | [] => false
  | (k1, _) :: rest => k1 = k || hasKeyD rest k

/-- Dictionary assignment `d[k] = v`: replaces the value in place, or appends a new entry. -/
def setD (m : List (α × β)) (k : α) (v : β) : List (α × β) :=
  match m with
  | [] => [(k, v)]
  | (k1, v1) :: rest => if k1 = k then (k, v) :: rest else (k1, v1) :: setD rest k v

/-- Dictionary deletion `del d[k]` (on unique-keyed dictionaries). -/
def delD (m : List (α × β)) (k : α) : List (α × β) :=
  match m with
  | [] => []
  | (k1, v1) :: rest => if k1 = k then delD rest k else (k1, v1) :: delD rest k

/-- `defaultdict` subscript access `d[k]`: returns the stored value, or inserts
the default at the end (Python appends fresh keys in insertion order) and
returns it.  The second component is the dictionary after the access. -/
def getD (m : List (α × β)) (k : α) (d : β) : β × List (α × β) :=
  if hasKeyD m k then (lookupD m k d, m) else (d, m ++ [(k, d)])

/-- `d.pop(k, default)`: returns the stored value (or the default) and removes the key. -/
def popD (m : List (α × β)) (k : α) (d : β) : β × List (α × β) :=
  (lookupD m k d, delD m k)

@[simp]
theorem lookupD_nil (k : α) (d : β) : lookupD ([] : List (α × β)) k d = d := rfl

theorem lookupD_of_not_hasKey (m : List (α × β)) (k : α) (d : β)
    (h : hasKeyD m k = false) : lookupD m k d = d := by
  induction m with
  | nil => rfl
  | cons p rest ih =>
    obtain ⟨k1, v⟩ := p
    simp [hasKeyD] at h
    simp [lookupD, h.1, ih h.2]

theorem lookupD_append (m1 m2 : List (α × β)) (k : α) (d : β) :
    lookupD (m1 ++ m2) k d =
      (if hasKeyD m1 k = true then lookupD m1 k d else lookupD m2 k d) := by
  induction m1 with
  | nil => simp [hasKeyD]
  | cons p rest ih =>
    obtain ⟨k1, v⟩ := p
    by_cases h : k1 = k <;> simp [lookupD, hasKeyD, h, ih]

@[simp]
theorem lookupD_setD (m : List (α × β)) (k k1 : α) (v : β) (d : β) :
    lookupD (setD m k v) k1 d = if k = k1 then v else lookupD m k1 d := by
  induction m with
  | nil =>
    by_cases h : k = k1 <;> simp [setD, lookupD, h]
  | cons p rest ih =>
    obtain ⟨k2, v2⟩ := p
    by_cases h2 : k2 = k
    · subst h2
      by_cases h1 : k2 = k1
      · subst h1
        simp [setD, lookupD]
      · simp [setD, lookupD, h1]
    · by_cases h1 : k2 = k1
      · subst h1
        have hne : ¬k = k2 := fun hk => h2 hk.symm
        simp [setD, lookupD, h2, hne]
      · simp [setD, lookupD, h2, h1, ih]

@[simp]
theorem lookupD_delD (m : List (α × β)) (k k1 : α) (d : β) :
    lookupD (delD m k) k1 d = if k = k1 then d else lookupD m k1 d := by
  induction m with
  | nil =>
    by_cases h : k = k1 <;> simp [delD, lookupD, h]
  | cons p rest ih =>
    obtain ⟨k2, v2⟩ := p
    by_cases h2 : k2 = k
    · subst h2
      by_cases h1 : k2 = k1
      · subst h1
        simpa [delD, lookupD] using ih
      · simp [delD, lookupD, h1, ih]
    · by_cases h1 : k2 = k1
      · subst h1
        have hne : ¬k = k2 := fun hk => h2 hk.symm
        simp [delD, lookupD, h2, hne]
      · simp [delD, lookupD, h2, h1, ih]

@[simp]
theorem getD_fst (m : List (α × β)) (k : α) (d : β) : (getD m k d).1 = lookupD m k d := by
  unfold getD
  by_cases h : hasKeyD m k = true
  · simp [h]
  · simp [h]
    exact (lookupD_of_not_hasKey m k d (by simpa using h)).symm

@[simp]
theorem lookupD_getD_snd (m : List (α × β)) (k k1 : α) (d : β) :
    lookupD (getD m k d).2 k1 d = lookupD m k1 d := by
  unfold getD
  by_cases h : hasKeyD m k = true
  · simp [h]
  · simp [h]
    rw [lookupD_append]
    by_cases h1 : hasKeyD m k1 = true
    · simp [h1]
    · have h2 := lookupD_of_not_hasKey m k1 d (by simpa using h1)
      simp [h1, lookupD, h2]

end PyDict

section PySet

variable {γ : Type} [DecidableEq γ]

/-- Python `set.add`, with sets carried as duplicate-free lists in insertion order. -/
def pyAdd (s : List γ) (a : γ) : List γ :=
  if a ∈ s then s else s ++ [a]

/-- Python `set.discard` on a duplicate-free list. -/
def pyDiscard (s : List γ) (a : γ) : List γ :=
  s.filter (fun x => decide (x ≠ a))

@[simp]
theorem mem_pyAdd (s : List γ) (a x : γ) : x ∈ pyAdd s a ↔ x ∈ s ∨ x = a := by
  unfold pyAdd
  by_cases h : a ∈ s
  · simp [h]
    intro hx
    subst hx
    exact h
  · simp [h]

@[simp]
theorem mem_pyDiscard (s : List γ) (a x : γ) : x ∈ pyDiscard s a ↔ x ∈ s ∧ x ≠ a := by
  simp [pyDiscard]

theorem pyDiscard_of_not_mem (s : List γ) (a : γ) (h : a ∉ s) : pyDiscard s a = s := by
  unfold pyDiscard
  apply List.filter_eq_self.mpr
  intro x hx
  simp
  intro hxa
  subst hxa
  exact h hx

end PySet

/-! ## The WebSocket connection registry (`WebSocketManager`)

State of `WebSocketManager.__init__`: three dictionaries.  Connection handles
are `Nat`, endpoint paths and room names are `String`. -/

structure WSState where
  active_connections : List (String × List Nat)
  active_rooms : List (String × List Nat)
  connection_rooms : List (Nat × List String)
deriving DecidableEq

/-- The three empty `defaultdict`s created by `WebSocketManager.__init__`. -/
def emptyWS : WSState := ⟨[], [], []⟩

/-- `WebSocketManager.connect` (the accept itself is the transport's business):
`self.active_connections[path].append(websocket)`. -/
def wsConnect (st : WSState) (path : String) (h : Nat) : WSState :=
  let acc := getD st.active_connections path []
  { st with active_connections := setD acc.2 path (acc.1 ++ [h]) }

/-- The `for room in rooms: self.active_rooms[room].discard(websocket)` loop of
`WebSocketManager.disconnect`. -/
def discardRooms (h : Nat) (ar : List (String × List Nat)) (rooms : List String) :
    List (String × List Nat) :=
  rooms.foldl (fun a room =>
    let s := getD a room []
    setD s.2 room (pyDiscard s.1 h)) ar

/-- `WebSocketManager.disconnect`.  Mirrors the source line by line: the
membership test `websocket in self.active_connections[path]` is a `defaultdict`
access (it may insert an empty list), `list.remove` drops the first occurrence,
`connection_rooms.pop(websocket, set())` yields the rooms to leave, and the
path entry is deleted when its list became empty. -/
def wsDisconnect (st : WSState) (path : String) (h : Nat) : WSState :=
  let acc := getD st.active_connections path []
  if h ∈ acc.1 then
    let l2 := acc.1.erase h
    let ac2 := setD acc.2 path l2
    let pr := popD st.connection_rooms h []
    let ar2 := discardRooms h st.active_rooms pr.1
    let ac3 := if l2 = [] then delD ac2 path else ac2
    { active_connections := ac3, active_rooms := ar2, connection_rooms := pr.2 }
  else
    { st with active_connections := acc.2 }

/-- `WebSocketManager.join_room`: adds the handle to `active_rooms[room]` and
the room to `connection_rooms[websocket]` (both `defaultdict` accesses). -/
def wsJoinRoom (st : WSState) (h : Nat) (room : String) : WSState :=
  let arc := getD st.active_rooms room []
  let ar2 := setD arc.2 room (pyAdd arc.1 h)
  let crc := getD st.connection_rooms h []
  let cr2 := setD crc.2 h (pyAdd crc.1 room)
  { st with active_rooms := ar2, connection_rooms := cr2 }

/-- `WebSocketManager.leave_room`: discards on both sides, then deletes the
room entry if `active_rooms[room]` became empty. -/
def wsLeaveRoom (st : WSState) (h : Nat) (room : String) : WSState :=
  let arc := getD st.active_rooms room []
  let s2 := pyDiscard arc.1 h
  let ar2 := setD arc.2 room s2
  let crc := getD st.connection_rooms h []
  let cr2 := setD crc.2 h (pyDiscard crc.1 room)
  let ar3 := if s2 = [] then delD ar2 room else ar2
  { st with active_rooms := ar3, connection_rooms := cr2 }

/-- The `for connection in connections` loop of `WebSocketManager.broadcast`.
Python iterates the live list object by index; `disconnect` mutates that very
list (`remove` drops an element in place, and the dictionary entry is deleted
only when the list is already empty), so re-reading
`active_connections[path]` (default `[]`) at every step is extensionally the
same traversal.  `fails c = true` models `connection.send_text` raising
`WebSocketException` for handle `c`; the second component collects the handles
whose send succeeded.  `fuel` only bounds the recursion; the loop index `i`
strictly increases while the list never grows, so any fuel of at least the
initial length is enough. -/
def broadcastAux (path : String) (fails : Nat → Bool) :
    WSState → Nat → Nat → WSState × List Nat
  | st, _, 0 => (st, [])
  | st, i, fuel + 1 =>
    if hlt : i < (lookupD st.active_connections path []).length then
      if fails ((lookupD st.active_connections path []).get ⟨i, hlt⟩) then
        broadcastAux path fails
          (wsDisconnect st path ((lookupD st.active_connections path []).get ⟨i, hlt⟩))
          (i + 1) fuel
      else
        ((broadcastAux path fails st (i + 1) fuel).1,
          (lookupD st.active_connections path []).get ⟨i, hlt⟩ ::
            (broadcastAux path fails st (i + 1) fuel).2)
    else (st, [])

/-- `WebSocketManager.broadcast`: `connections = self.active_connections.get(path, [])`
then the send loop, disconnecting a connection whose send raised. -/
def wsBroadcast (st : WSState) (path : String) (fails : Nat → Bool) : WSState × List Nat :=
  broadcastAux path fails st 0 ((lookupD st.active_connections path []).length + 1)

/-- `WebSocketManager.send_to_room`: sends to `active_rooms.get(room, set())`;
a failing send is logged and skipped (`continue`), no state is mutated. -/
def wsSendToRoom (st : WSState) (room : String) (fails : Nat → Bool) : WSState × List Nat :=
  (st, (lookupD st.active_rooms room []).filter (fun c => !fails c))

/-- One operation on the connection registry. -/
inductive WSOp where
  | connect (path : String) (h : Nat)
  | disconnect (path : String) (h : Nat)
  | joinRoom (h : Nat) (room : String)
  | leaveRoom (h : Nat) (room : String)
  | broadcast (path : String) (fails : Nat → Bool)
  | sendToRoom (room : String) (fails : Nat → Bool)

/-- Interpreting one operation on the registry state. -/
def wsStep (st : WSState) : WSOp → WSState
  | .connect path h => wsConnect st path h
  | .disconnect path h => wsDisconnect st path h
  | .joinRoom h room => wsJoinRoom st h room
  | .leaveRoom h room => wsLeaveRoom st h room
  | .broadcast path fails => (wsBroadcast st path fails).1
  | .sendToRoom room fails => (wsSendToRoom st room fails).1

/-- Running a sequence of operations from the empty registry. -/
def wsRun (ops : List WSOp) : WSState :=
  ops.foldl wsStep emptyWS

/-- Bidirectional consistency of the room indices:
`room ∈ connection_rooms[h] ⇔ h ∈ active_rooms[room]` (absent keys read as empty). -/
def BidiInv (st : WSState) : Prop :=
  ∀ (h : Nat) (r : String),
    r ∈ lookupD st.connection_rooms h [] ↔ h ∈ lookupD st.active_rooms r []

theorem bidi_empty : BidiInv emptyWS := by
  intro h r
  simp [emptyWS]

theorem bidi_connect (st : WSState) (path : String) (h : Nat) (inv : BidiInv st) :
    BidiInv (wsConnect st path h) := by
  intro h1 r1
  simpa [wsConnect] using inv h1 r1

theorem bidi_joinRoom (st : WSState) (h : Nat) (room : String) (inv : BidiInv st) :
    BidiInv (wsJoinRoom st h room) := by
  intro h1 r1
  have base := inv h1 r1
  by_cases hh : h = h1
  · subst hh
    by_cases hr : room = r1
    · subst hr
      simp [wsJoinRoom]
    · have hr1 : ¬r1 = room := fun e => hr e.symm
      simp [wsJoinRoom, hr, hr1, base]
  · by_cases hr : room = r1
    · subst hr
      have hh1 : ¬h1 = h := fun e => hh e.symm
      simp [wsJoinRoom, hh, hh1, base]
    · simp [wsJoinRoom, hh, hr, base]

/-- The `active_rooms` lookups after `leave_room`, in terms of the old state.
When the discarded set became empty the entry is deleted, so the lookup with
empty default is the discard result either way. -/
theorem lookup_leave_ar (st : WSState) (h : Nat) (room r1 : String) :
    lookupD (wsLeaveRoom st h room).active_rooms r1 [] =
      (if room = r1 then pyDiscard (lookupD st.active_rooms room []) h
       else lookupD st.active_rooms r1 []) := by
  simp only [wsLeaveRoom, getD_fst]
  by_cases he : pyDiscard (lookupD st.active_rooms room []) h = []
  · rw [if_pos he]
    simp [he]
    intro hx hx1
    exact absurd hx hx1
  · rw [if_neg he]
    simp

/-- The `connection_rooms` lookups after `leave_room`, in terms of the old state. -/
theorem lookup_leave_cr (st : WSState) (h : Nat) (room : String) (h1 : Nat) :
    lookupD (wsLeaveRoom st h room).connection_rooms h1 [] =
      (if h = h1 then pyDiscard (lookupD st.connection_rooms h []) room
       else lookupD st.connection_rooms h1 []) := by
  simp only [wsLeaveRoom, getD_fst]
  by_cases hh : h = h1 <;> simp [hh]

theorem bidi_leaveRoom (st : WSState) (h : Nat) (room : String) (inv : BidiInv st) :
    BidiInv (wsLeaveRoom st h room) := by
  intro h1 r1
  have base := inv h1 r1
  show r1 ∈ lookupD (wsLeaveRoom st h room).connection_rooms h1 [] ↔
    h1 ∈ lookupD (wsLeaveRoom st h room).active_rooms r1 []
  rw [lookup_leave_cr, lookup_leave_ar]
  by_cases hh : h = h1
  · subst hh
    by_cases hr : room = r1
    · subst hr
      simp
    · have hr1 : ¬r1 = room := fun e => hr e.symm
      simp [hr, hr1, base]
  · by_cases hr : room = r1
    · subst hr
      have hh1 : ¬h1 = h := fun e => hh e.symm
      simp [hh, hh1, base]
    · simp [hh, hr, base]

/-- Memberships of `active_rooms` after the room-discard loop of `disconnect`. -/
theorem mem_discardRooms (h : Nat) (rooms : List String)
    (ar : List (String × List Nat)) (x : Nat) (r : String) :
    x ∈ lookupD (discardRooms h ar rooms) r [] ↔
      x ∈ lookupD ar r [] ∧ ¬(x = h ∧ r ∈ rooms) := by
  induction rooms generalizing ar with
  | nil => simp [discardRooms]
  | cons room rest ih =>
    have hstep : discardRooms h ar (room :: rest) =
        discardRooms h
          (setD (getD ar room []).2 room (pyDiscard (getD ar room []).1 h)) rest := rfl
    rw [hstep, ih]
    by_cases hr : room = r
    · subst hr
      simp
      tauto
    · have hr1 : ¬r = room := fun e => hr e.symm
      simp [hr, hr1]

theorem bidi_disconnect (st : WSState) (path : String) (h : Nat) (inv : BidiInv st) :
    BidiInv (wsDisconnect st path h) := by
  intro h1 r1
  unfold wsDisconnect
  by_cases hc : h ∈ (getD st.active_connections path []).1
  · rw [if_pos hc]
    show r1 ∈ lookupD (popD st.connection_rooms h []).2 h1 [] ↔
      h1 ∈ lookupD (discardRooms h st.active_rooms (popD st.connection_rooms h []).1) r1 []
    rw [mem_discardRooms]
    unfold popD
    by_cases hh : h = h1
    · subst hh
      have base := inv h r1
      simp [base]
    · have hh1 : ¬h1 = h := fun e => hh e.symm
      have base := inv h1 r1
      simp [hh, hh1, base]
  · rw [if_neg hc]
    exact inv h1 r1

theorem bidi_broadcastAux (path : String) (fails : Nat → Bool) :
    ∀ (fuel : Nat) (st : WSState) (i : Nat),
      BidiInv st → BidiInv (broadcastAux path fails st i fuel).1 := by
  intro fuel
  induction fuel with
  | zero => intro st i inv; exact inv
  | succ n ih =>
    intro st i inv
    unfold broadcastAux
    split
    · split
      · exact ih _ _ (bidi_disconnect _ _ _ inv)
      · exact ih _ _ inv
    · exact inv

theorem bidi_step (st : WSState) (op : WSOp) (inv : BidiInv st) : BidiInv (wsStep st op) := by
  cases op with
  | connect path h => exact bidi_connect st path h inv
  | disconnect path h => exact bidi_disconnect st path h inv
  | joinRoom h room => exact bidi_joinRoom st h room inv
  | leaveRoom h room => exact bidi_leaveRoom st h room inv
  | broadcast path fails => exact bidi_broadcastAux path fails _ st 0 inv
  | sendToRoom room fails => exact inv

theorem bidi_foldl (ops : List WSOp) :
    ∀ st : WSState, BidiInv st → BidiInv (ops.foldl wsStep st) := by
  induction ops with
  | nil => intro st inv; exact inv
  | cons op rest ih => intro st inv; exact ih _ (bidi_step st op inv)

/-- Claim C1: for every sequence of connection-manager operations starting from
the empty registry, after each operation the bidirectional consistency holds:
for every handle `h` and room `r`, `r ∈ connection_rooms[h]` if and only if
`h ∈ active_rooms[r]`. -/
theorem c1_bidirectional_consistency (ops : List WSOp) : BidiInv (wsRun ops) :=
  bidi_foldl ops emptyWS bidi_empty

/-! ## Claim C5: idempotence of `disconnect`

A second `disconnect` for a handle that is no longer registered takes the
`else` path, but the membership test `websocket in self.active_connections[path]`
is a `defaultdict` access and may re-insert an empty list under `path`, so the
states after one and after two calls are not literally equal. -/

theorem disconnect_of_not_mem (st : WSState) (path : String) (h : Nat)
    (hm : h ∉ lookupD st.active_connections path []) :
    wsDisconnect st path h =
      { st with active_connections := (getD st.active_connections path []).2 } := by
  unfold wsDisconnect
  rw [if_neg (by simpa using hm)]

theorem not_mem_after_disconnect (st : WSState) (path : String) (h : Nat)
    (hcount : List.count h (lookupD st.active_connections path []) ≤ 1) :
    h ∉ lookupD (wsDisconnect st path h).active_connections path [] := by
  unfold wsDisconnect
  by_cases hm : h ∈ (getD st.active_connections path []).1
  · rw [if_pos hm]
    dsimp only
    have h0 : List.count h ((getD st.active_connections path []).1.erase h) = 0 := by
      rw [List.count_erase_self, getD_fst]
      omega
    have hnot : h ∉ (getD st.active_connections path []).1.erase h :=
      List.count_eq_zero.mp h0
    by_cases he : (getD st.active_connections path []).1.erase h = []
    · rw [if_pos he, lookupD_delD, if_pos rfl]
      simp
    · rw [if_neg he, lookupD_setD, if_pos rfl]
      exact hnot
  · rw [if_neg hm]
    show h ∉ lookupD (getD st.active_connections path []).2 path []
    rw [lookupD_getD_snd]
    rw [getD_fst] at hm
    exact hm

/-- Counterexample to claim C5 as stated: with a single connection `1` at path
`"p"`, one `disconnect` deletes the `"p"` entry, while the second call's
`defaultdict` membership test re-creates `"p"` with an empty list, so the
final states differ (the key `"p"` is present after two calls, absent after
one). -/
theorem c5_counterexample :
    wsDisconnect (wsDisconnect (wsConnect emptyWS "p" 1) "p" 1) "p" 1 ≠
        wsDisconnect (wsConnect emptyWS "p" 1) "p" 1 ∧
    hasKeyD (wsDisconnect (wsDisconnect (wsConnect emptyWS "p" 1) "p" 1) "p" 1).active_connections
        "p" = true ∧
    hasKeyD (wsDisconnect (wsConnect emptyWS "p" 1) "p" 1).active_connections "p" = false :=
  ⟨by decide, by decide, by decide⟩

/-- Claim C5 (amended): for any registry state in which the handle occurs at
most once under the path (handles are unique per live connection), calling
`disconnect` twice yields the same `active_rooms` and `connection_rooms` as
calling it once, and the same `active_connections` lookups at every path; the
only possible difference is an empty-list entry re-created under `path` by the
second call's membership test.  The second call raises nothing (the model is a
total function). -/
theorem c5_disconnect_idempotent (st : WSState) (path : String) (h : Nat) (p : String)
    (hcount : List.count h (lookupD st.active_connections path []) ≤ 1) :
    (wsDisconnect (wsDisconnect st path h) path h).active_rooms =
        (wsDisconnect st path h).active_rooms ∧
    (wsDisconnect (wsDisconnect st path h) path h).connection_rooms =
        (wsDisconnect st path h).connection_rooms ∧
    lookupD (wsDisconnect (wsDisconnect st path h) path h).active_connections p [] =
        lookupD (wsDisconnect st path h).active_connections p [] := by
  rw [disconnect_of_not_mem _ _ _ (not_mem_after_disconnect st path h hcount)]
  exact ⟨rfl, rfl, lookupD_getD_snd _ _ _ _⟩

/-- Witness for C5 at a concrete input: one connection `1` at `"p"`. -/
theorem c5_witness :
    List.count 1 (lookupD (wsConnect emptyWS "p" 1).active_connections "p" []) ≤ 1 ∧
    ((wsDisconnect (wsDisconnect (wsConnect emptyWS "p" 1) "p" 1) "p" 1).active_rooms =
        (wsDisconnect (wsConnect emptyWS "p" 1) "p" 1).active_rooms ∧
      (wsDisconnect (wsDisconnect (wsConnect emptyWS "p" 1) "p" 1) "p" 1).connection_rooms =
        (wsDisconnect (wsConnect emptyWS "p" 1) "p" 1).connection_rooms ∧
      lookupD (wsDisconnect (wsDisconnect (wsConnect emptyWS "p" 1) "p" 1) "p"
          1).active_connections "p" [] =
        lookupD (wsDisconnect (wsConnect emptyWS "p" 1) "p" 1).active_connections "p" []) :=
  ⟨by decide, c5_disconnect_idempotent (wsConnect emptyWS "p" 1) "p" 1 "p" (by decide)⟩

/-! ## Claim C9: `leave_room` on a pair that is not joined

The registry lookups are unchanged, but the `defaultdict` accesses may create
an empty `connection_rooms[handle]` entry, and the trailing emptiness check may
delete a pre-existing empty `active_rooms[room]` entry, so the state is not
literally identical. -/

/-- Counterexample to claim C9 as stated: `leave_room(1, "r")` on the empty
registry creates an empty `connection_rooms` entry for handle `1`, so the state
after the call differs from the state before it. -/
theorem c9_counterexample :
    wsLeaveRoom emptyWS 1 "r" ≠ emptyWS ∧
    hasKeyD (wsLeaveRoom emptyWS 1 "r").connection_rooms 1 = true :=
  ⟨by decide, by decide⟩

/-- Claim C9 (amended): when the handle is recorded neither in
`connection_rooms[handle]` for the room nor in `active_rooms[room]` (as on any
consistent registry state where the pair is not joined), `leave_room` does not
raise, leaves `active_connections` untouched, and changes no lookup of
`active_rooms` or `connection_rooms`; only `defaultdict` bookkeeping entries
holding the empty set can appear or disappear. -/
theorem c9_leaveRoom_not_joined (st : WSState) (h : Nat) (room : String) (r1 : String) (h1 : Nat)
    (hcr : room ∉ lookupD st.connection_rooms h [])
    (har : h ∉ lookupD st.active_rooms room []) :
    (wsLeaveRoom st h room).active_connections = st.active_connections ∧
    lookupD (wsLeaveRoom st h room).active_rooms r1 [] = lookupD st.active_rooms r1 [] ∧
    lookupD (wsLeaveRoom st h room).connection_rooms h1 [] =
        lookupD st.connection_rooms h1 [] := by
  refine ⟨rfl, ?_, ?_⟩
  · rw [lookup_leave_ar]
    by_cases hr : room = r1
    · subst hr
      rw [if_pos rfl, pyDiscard_of_not_mem _ _ har]
    · rw [if_neg hr]
  · rw [lookup_leave_cr]
    by_cases hh : h = h1
    · subst hh
      rw [if_pos rfl, pyDiscard_of_not_mem _ _ hcr]
    · rw [if_neg hh]

/-- Witness for C9 at a concrete input: handle `1` joined only `"other"`,
then leaves `"r"`. -/
theorem c9_witness :
    ("r" ∉ lookupD (wsJoinRoom emptyWS 1 "other").connection_rooms 1 []) ∧
    (1 ∉ lookupD (wsJoinRoom emptyWS 1 "other").active_rooms "r" []) ∧
    ((wsLeaveRoom (wsJoinRoom emptyWS 1 "other") 1 "r").active_connections =
        (wsJoinRoom emptyWS 1 "other").active_connections ∧
      lookupD (wsLeaveRoom (wsJoinRoom emptyWS 1 "other") 1 "r").active_rooms "r" [] =
        lookupD (wsJoinRoom emptyWS 1 "other").active_rooms "r" [] ∧
      lookupD (wsLeaveRoom (wsJoinRoom emptyWS 1 "other") 1 "r").connection_rooms 1 [] =
        lookupD (wsJoinRoom emptyWS 1 "other").connection_rooms 1 []) :=
  ⟨by decide, by decide,
    c9_leaveRoom_not_joined (wsJoinRoom emptyWS 1 "other") 1 "r" "r" 1 (by decide) (by decide)⟩

/-! ## Claim C3: broadcast with a failing send

`broadcast` iterates the very list that `disconnect` mutates.  With three
connections and the second send failing, the loop index has already advanced
past the shrunken list's end, so the third connection never receives the
message, contrary to the specification's snapshot-delivery requirement. -/

/-- Three connections 1, 2, 3 accepted under `"/chat"`. -/
def chat3 : WSState := wsConnect (wsConnect (wsConnect emptyWS "/chat" 1) "/chat" 2) "/chat" 3

/-- Claim C3 (what the code actually does at the claim's scenario): broadcasting
over `"/chat"` with three connections where the send to connection 2 raises a
transport error delivers the message only to connection 1 — connection 3 is
skipped because `disconnect` removed an element of the list being iterated —
while connection 2 is indeed removed from `active_connections["/chat"]`.  This
contradicts the claim, which requires connections 1 and 3 both to receive. -/
theorem c3_broadcast_skips_after_failure :
    (wsBroadcast chat3 "/chat" (fun n => n == 2)).2 = [1] ∧
    (3 ∉ (wsBroadcast chat3 "/chat" (fun n => n == 2)).2) ∧
    lookupD (wsBroadcast chat3 "/chat" (fun n => n == 2)).1.active_connections "/chat" [] =
        [1, 3] :=
  ⟨by decide, by decide, by decide⟩

/-! ## Lifecycle hooks and endpoint adapters (`ControllerMeta`, `Controller._execute_hooks`)

A hook's behavior when invoked is its outcome: it either returns or raises an
exception.  Exceptions are classified the way the endpoint adapters classify
them: `WebSocketDisconnect`, `UnauthorizedError`, or any other `Exception`. -/

inductive PyErr where
  | wsDisconnected
  | unauthorized
  | other
deriving DecidableEq

/-- What one hook invocation does: return normally, or raise `e`. -/
inductive HookOutcome where
  | ok
  | raise (e : PyErr)
deriving DecidableEq

/-- What the user handler does: return a response value, or raise `e`. -/
inductive HandlerOutcome where
  | ok (resp : Nat)
  | raise (e : PyErr)
deriving DecidableEq

/-- `Controller._execute_hooks`: runs the hooks in order; each failure is
caught and logged, and re-raised only when the hook kind is `before_request`
(`isBefore = true`), aborting the remaining hooks.  Returns the propagated
exception (if any) and the number of hooks that were invoked. -/
def executeHooks (isBefore : Bool) : List HookOutcome → Option PyErr × Nat
  | [] => (none, 0)
  | hook :: rest =>
    match hook with
    | .ok =>
      ((executeHooks isBefore rest).1, (executeHooks isBefore rest).2 + 1)
    | .raise e =>
      if isBefore then (some e, 1)
      else ((executeHooks isBefore rest).1, (executeHooks isBefore rest).2 + 1)

/-- For non-`before_request` hook kinds every failure is swallowed, so hook
execution never propagates an exception. -/
theorem executeHooks_false_fst (hooks : List HookOutcome) :
    (executeHooks false hooks).1 = none := by
  induction hooks with
  | nil => rfl
  | cons hook rest ih => cases hook <;> simp [executeHooks, ih]

/-- For non-`before_request` hook kinds every hook runs, failures included. -/
theorem executeHooks_false_snd (hooks : List HookOutcome) :
    (executeHooks false hooks).2 = hooks.length := by
  induction hooks with
  | nil => rfl
  | cons hook rest ih => cases hook <;> simp [executeHooks, ih]

theorem executeHooks_true_of_ok_prefix (pre rest : List HookOutcome) (e : PyErr)
    (hpre : ∀ x ∈ pre, x = HookOutcome.ok) :
    executeHooks true (pre ++ HookOutcome.raise e :: rest) = (some e, pre.length + 1) := by
  induction pre with
  | nil => simp [executeHooks]
  | cons hook pre1 ih =>
    have hh : hook = HookOutcome.ok := hpre hook (by simp)
    subst hh
    have ih1 := ih (fun x hx => hpre x (by simp [hx]))
    simp [executeHooks, ih1]

/-- The observable outcome of one HTTP request through the adapter that
`create_http_endpoint` registers. -/
structure HttpOutcome where
  handlerInvoked : Bool
  beforeRan : Nat
  afterRan : Nat
  raised : Option PyErr
  response : Option Nat
deriving DecidableEq

/-- The `endpoint` closure of `create_http_endpoint`: run `before_request`
hooks (their first failure propagates), then the handler (its exception is
re-raised); the `finally` block runs the `after_request` hooks, whose failures
`_execute_hooks` and the surrounding `try/except` both swallow, and then the
original response is returned or the original exception propagates. -/
def httpEndpoint (before : List HookOutcome) (handler : HandlerOutcome)
    (after : List HookOutcome) : HttpOutcome :=
  match (executeHooks true before).1 with
  | some e =>
    { handlerInvoked := false, beforeRan := (executeHooks true before).2,
      afterRan := (executeHooks false after).2, raised := some e, response := none }
  | none =>
    match handler with
    | .raise e =>
      { handlerInvoked := true, beforeRan := (executeHooks true before).2,
        afterRan := (executeHooks false after).2, raised := some e, response := none }
    | .ok r =>
      { handlerInvoked := true, beforeRan := (executeHooks true before).2,
        afterRan := (executeHooks false after).2, raised := none, response := some r }

/-- Claim C6: the `after_request` hooks all run whether the handler returned or
raised, and their failures never mask the handler's outcome — the adapter's
raised exception and response are independent of the `after_request` hooks and,
when the `before_request` hooks succeeded, equal the handler's own outcome. -/
theorem c6_after_hooks_always_run_never_mask (before : List HookOutcome)
    (handler : HandlerOutcome) (after : List HookOutcome) :
    (httpEndpoint before handler after).afterRan = after.length ∧
    (httpEndpoint before handler after).raised = (httpEndpoint before handler []).raised ∧
    (httpEndpoint before handler after).response = (httpEndpoint before handler []).response ∧
    ((executeHooks true before).1 = none →
      (httpEndpoint before handler after).raised =
          (match handler with | .ok _ => none | .raise e => some e) ∧
      (httpEndpoint before handler after).response =
          (match handler with | .ok r => some r | .raise _ => none)) := by
  unfold httpEndpoint
  match hb : (executeHooks true before).1 with
  | some e => simp [executeHooks_false_snd]
  | none => cases handler <;> simp [executeHooks_false_snd]

/-- Witness for C6: no `before_request` hooks, a handler raising a generic
exception, one failing `after_request` hook: the after hook still runs and the
handler's exception is what propagates. -/
theorem c6_witness :
    (httpEndpoint [] (HandlerOutcome.raise PyErr.other) [HookOutcome.raise PyErr.other]).afterRan
        = 1 ∧
    (httpEndpoint [] (HandlerOutcome.raise PyErr.other) [HookOutcome.raise PyErr.other]).raised =
        (httpEndpoint [] (HandlerOutcome.raise PyErr.other) []).raised ∧
    (httpEndpoint [] (HandlerOutcome.raise PyErr.other) [HookOutcome.raise PyErr.other]).response =
        (httpEndpoint [] (HandlerOutcome.raise PyErr.other) []).response ∧
    ((httpEndpoint [] (HandlerOutcome.raise PyErr.other) [HookOutcome.raise PyErr.other]).raised =
        some PyErr.other ∧
      (httpEndpoint [] (HandlerOutcome.raise PyErr.other)
          [HookOutcome.raise PyErr.other]).response = none) := by
  have h := c6_after_hooks_always_run_never_mask [] (HandlerOutcome.raise PyErr.other)
    [HookOutcome.raise PyErr.other]
  exact ⟨h.1, h.2.1, h.2.2.1, h.2.2.2 rfl⟩

/-- Claim C7: if a `before_request` hook raises, the remaining
`before_request` hooks do not run, the handler is never invoked, and the
hook's exception is what propagates to the caller. -/
theorem c7_before_hook_failure_aborts (pre rest : List HookOutcome) (e : PyErr)
    (handler : HandlerOutcome) (after : List HookOutcome)
    (hpre : ∀ x ∈ pre, x = HookOutcome.ok) :
    (httpEndpoint (pre ++ HookOutcome.raise e :: rest) handler after).handlerInvoked = false ∧
    (httpEndpoint (pre ++ HookOutcome.raise e :: rest) handler after).beforeRan =
        pre.length + 1 ∧
    (httpEndpoint (pre ++ HookOutcome.raise e :: rest) handler after).raised = some e := by
  have hexec := executeHooks_true_of_ok_prefix pre rest e hpre
  unfold httpEndpoint
  rw [hexec]
  exact ⟨rfl, rfl, rfl⟩

/-- Witness for C7: one succeeding hook, then one raising `unauthorized`, then
one more hook that must not run. -/
theorem c7_witness :
    (∀ x ∈ [HookOutcome.ok], x = HookOutcome.ok) ∧
    ((httpEndpoint ([HookOutcome.ok] ++ HookOutcome.raise PyErr.unauthorized ::
          [HookOutcome.raise PyErr.other]) (HandlerOutcome.ok 7) []).handlerInvoked = false ∧
      (httpEndpoint ([HookOutcome.ok] ++ HookOutcome.raise PyErr.unauthorized ::
          [HookOutcome.raise PyErr.other]) (HandlerOutcome.ok 7) []).beforeRan = 2 ∧
      (httpEndpoint ([HookOutcome.ok] ++ HookOutcome.raise PyErr.unauthorized ::
          [HookOutcome.raise PyErr.other]) (HandlerOutcome.ok 7) []).raised =
          some PyErr.unauthorized) :=
  ⟨by decide,
    c7_before_hook_failure_aborts [HookOutcome.ok] [HookOutcome.raise PyErr.other]
      PyErr.unauthorized (HandlerOutcome.ok 7) [] (by decide)⟩

/-! ## The WebSocket endpoint adapter (`create_websocket_endpoint`)

The adapter's try block runs `before_request` hooks, then
`on_websocket_connect` hooks, then the user handler.  `_execute_hooks`
re-raises only `before_request` failures, so `on_websocket_connect` failures
are logged and swallowed there and never reach the adapter's `except` clauses.
The `except` clauses translate the exception that escapes the try block into a
close code (`WebSocketDisconnect`: none, `UnauthorizedError`: 1008, anything
else: 1011); the `finally` block runs every `on_websocket_disconnect` hook and
deregisters from the manager. -/

structure WsEndpointOutcome where
  handlerInvoked : Bool
  connectHooksRan : Nat
  closeCode : Option Nat
  disconnectHooksRan : Nat
  deregistered : Bool
deriving DecidableEq

/-- The close code the adapter's `except` clauses produce for the exception
escaping the try block. -/
def closeCodeFor : Option PyErr → Option Nat
  | none => none
  | some PyErr.wsDisconnected => none
  | some PyErr.unauthorized => some 1008
  | some PyErr.other => some 1011

/-- The `websocket_endpoint` closure registered by `create_websocket_endpoint`.
The ws handler returns nothing, so its behavior is a `HookOutcome`. -/
def websocketEndpoint (beforeHooks connectHooks disconnectHooks : List HookOutcome)
    (handler : HookOutcome) : WsEndpointOutcome :=
  match (executeHooks true beforeHooks).1 with
  | some e =>
    { handlerInvoked := false, connectHooksRan := 0, closeCode := closeCodeFor (some e),
      disconnectHooksRan := (executeHooks false disconnectHooks).2, deregistered := true }
  | none =>
    match handler with
    | .ok =>
      { handlerInvoked := true, connectHooksRan := (executeHooks false connectHooks).2,
        closeCode := none,
        disconnectHooksRan := (executeHooks false disconnectHooks).2, deregistered := true }
    | .raise e =>
      { handlerInvoked := true, connectHooksRan := (executeHooks false connectHooks).2,
        closeCode := closeCodeFor (some e),
        disconnectHooksRan := (executeHooks false disconnectHooks).2, deregistered := true }

/-- Counterexample to claim C4 as stated: with no `before_request` hooks, an
`on_connect` hook raising `UnauthorizedError`, and a normally returning
handler, the handler is invoked anyway and no close code is sent —
`_execute_hooks` swallows the authorization failure because the hook kind is
not `before_request`, so the `except UnauthorizedError` clause never fires. -/
theorem c4_counterexample :
    (websocketEndpoint [] [HookOutcome.raise PyErr.unauthorized] []
        HookOutcome.ok).handlerInvoked = true ∧
    (websocketEndpoint [] [HookOutcome.raise PyErr.unauthorized] []
        HookOutcome.ok).closeCode = none :=
  ⟨rfl, rfl⟩

/-- Claim C4 (amended): an authorization failure raised by an `on_connect`
hook is caught and logged inside `_execute_hooks` and does not propagate:
whenever the `before_request` hooks succeed, the user handler is invoked no
matter what the `on_connect` hooks raise, and the close code is determined by
the handler alone (a policy-violation 1008 close happens only when an
authorization failure escapes the try block, i.e. comes from a
`before_request` hook or from the handler itself). -/
theorem c4_connect_hook_failures_swallowed (beforeHooks connectHooks disconnectHooks :
      List HookOutcome) (handler : HookOutcome)
    (hb : (executeHooks true beforeHooks).1 = none) :
    (websocketEndpoint beforeHooks connectHooks disconnectHooks handler).handlerInvoked =
        true ∧
    (websocketEndpoint beforeHooks connectHooks disconnectHooks handler).closeCode =
        (match handler with | .ok => none | .raise e => closeCodeFor (some e)) := by
  unfold websocketEndpoint
  rw [hb]
  cases handler <;> exact ⟨rfl, rfl⟩

/-- Witness for C4 (amended) at the counterexample's input. -/
theorem c4_witness :
    (executeHooks true []).1 = none ∧
    ((websocketEndpoint [] [HookOutcome.raise PyErr.unauthorized] []
          HookOutcome.ok).handlerInvoked = true ∧
      (websocketEndpoint [] [HookOutcome.raise PyErr.unauthorized] []
          HookOutcome.ok).closeCode = none) :=
  ⟨rfl, c4_connect_hook_failures_swallowed [] [HookOutcome.raise PyErr.unauthorized] []
    HookOutcome.ok rfl⟩

/-! ## Route registration (`ControllerMeta.__new__` registration loop)

For each attribute of the class body carrying `_route_info`, the metaclass
calls `getattr(router, http_method.lower())(path)(endpoint)` once per verb in
`methods`.  There is no duplicate check of any kind: the loop registers every
(verb, path) of every marked method, duplicates included, and raises nothing. -/

structure RouteInfo where
  path : String
  methods : List String
deriving DecidableEq

/-- One attribute of a controller class body, as the registration loop sees it:
its name and its optional `_route_info` marker. -/
structure AttrDef where
  name : String
  route_info : Option RouteInfo
deriving DecidableEq

/-- The router registrations performed by the `ControllerMeta.__new__` loop, in
order: one `(verb, path, handler name)` triple per
`getattr(router, http_method.lower())(path)(endpoint)` call (the lowercasing
only selects the router method's name; the verb is kept verbatim here). -/
def registerRoutes (attrs : List AttrDef) : List (String × String × String) :=
  attrs.flatMap (fun a =>
    match a.route_info with
    | some ri => ri.methods.map (fun v => (v, ri.path, a.name))
    | none => [])

/-- A controller body with two methods `"a"` and `"b"` both marked
`@get("/x")`. -/
def dupAttrs : List AttrDef :=
  [⟨"a", some ⟨"/x", ["GET"]⟩⟩, ⟨"b", some ⟨"/x", ["GET"]⟩⟩]

/-- Counterexample to claim C2 as stated: processing a controller whose two
methods share the verb/path pair `(GET, "/x")` performs both registrations on
the host router — route registration does occur, and the (total, exception-free)
registration loop raises no definition-time error. -/
theorem c2_counterexample :
    registerRoutes dupAttrs = [("GET", "/x", "a"), ("GET", "/x", "b")] ∧
    registerRoutes dupAttrs ≠ [] :=
  ⟨by decide, by decide⟩

/-- Claim C2 (amended): the metaclass performs no duplicate-route check —
every (verb, path) pair of every method marked with `_route_info` is
registered on the host router, duplicates included, and no error is raised
(the registration loop is a total function of the class body). -/
theorem c2_all_marked_methods_registered (attrs : List AttrDef) (a : AttrDef)
    (ri : RouteInfo) (v : String) (ha : a ∈ attrs) (hri : a.route_info = some ri)
    (hv : v ∈ ri.methods) :
    (v, ri.path, a.name) ∈ registerRoutes attrs := by
  unfold registerRoutes
  rw [List.mem_flatMap]
  refine ⟨a, ha, ?_⟩
  rw [hri]
  exact List.mem_map.mpr ⟨v, hv, rfl⟩

/-- Witness for C2 (amended): the second duplicate is registered too. -/
theorem c2_witness :
    ((⟨"b", some ⟨"/x", ["GET"]⟩⟩ : AttrDef) ∈ dupAttrs ∧
      (⟨"b", some ⟨"/x", ["GET"]⟩⟩ : AttrDef).route_info = some ⟨"/x", ["GET"]⟩ ∧
      "GET" ∈ (⟨"/x", ["GET"]⟩ : RouteInfo).methods) ∧
    ("GET", "/x", "b") ∈ registerRoutes dupAttrs :=
  ⟨⟨by decide, rfl, by decide⟩,
    c2_all_marked_methods_registered dupAttrs ⟨"b", some ⟨"/x", ["GET"]⟩⟩ ⟨"/x", ["GET"]⟩
      "GET" (by decide) rfl (by decide)⟩

/-! ## Lifecycle-hook collection (`ControllerMeta.__new__` hook collection)

`_lifecycle_hooks` starts as four empty lists, is extended with each direct
base's lists kind by kind, and then the hooks declared in the class body (its
attributes carrying `_hook_type`, in declaration order — Python class bodies
preserve it) are appended. -/

inductive HookKind where
  | beforeRequest
  | afterRequest
  | onWsConnect
  | onWsDisconnect
deriving DecidableEq

/-- The `_lifecycle_hooks` dictionary: one list of hook (method) names per kind. -/
structure LifecycleHooks where
  before_request : List String
  after_request : List String
  on_websocket_connect : List String
  on_websocket_disconnect : List String
deriving DecidableEq

def getHooks (L : LifecycleHooks) : HookKind → List String
  | .beforeRequest => L.before_request
  | .afterRequest => L.after_request
  | .onWsConnect => L.on_websocket_connect
  | .onWsDisconnect => L.on_websocket_disconnect

/-- The freshly initialized hook dictionary. -/
def emptyLifecycle : LifecycleHooks := ⟨[], [], [], []⟩

/-- `new_cls._lifecycle_hooks[hook_type].extend(hooks)` over all four kinds
(one base class). -/
def mergeHooks (acc base : LifecycleHooks) : LifecycleHooks :=
  ⟨acc.before_request ++ base.before_request,
    acc.after_request ++ base.after_request,
    acc.on_websocket_connect ++ base.on_websocket_connect,
    acc.on_websocket_disconnect ++ base.on_websocket_disconnect⟩

/-- `new_cls._lifecycle_hooks[hook_type].append(attr_value)`. -/
def appendHook (L : LifecycleHooks) (k : HookKind) (n : String) : LifecycleHooks :=
  match k with
  | .beforeRequest => { L with before_request := L.before_request ++ [n] }
  | .afterRequest => { L with after_request := L.after_request ++ [n] }
  | .onWsConnect => { L with on_websocket_connect := L.on_websocket_connect ++ [n] }
  | .onWsDisconnect => { L with on_websocket_disconnect := L.on_websocket_disconnect ++ [n] }

/-- One attribute of the class body as the hook-collection loop sees it: its
name and its optional `_hook_type` marker. -/
structure HookAttr where
  name : String
  hook_type : Option HookKind
deriving DecidableEq

/-- The hook-collection part of `ControllerMeta.__new__`: start from the four
empty lists, extend with each direct base's hooks, then append the hooks
declared in the class body in declaration order. -/
def collectHooks (bases : List LifecycleHooks) (attrs : List HookAttr) : LifecycleHooks :=
  (attrs.foldl (fun acc a =>
      match a.hook_type with
      | some k => appendHook acc k a.name
      | none => acc)
    (bases.foldl mergeHooks emptyLifecycle))

/-- The hooks of kind `k` declared in a class body, in declaration order. -/
def declaredHooks (attrs : List HookAttr) (k : HookKind) : List String :=
  attrs.filterMap (fun a =>
    match a.hook_type with
    | some k2 => if k2 = k then some a.name else none
    | none => none)

theorem getHooks_appendHook (L : LifecycleHooks) (k k1 : HookKind) (n : String) :
    getHooks (appendHook L k n) k1 =
      (if k = k1 then getHooks L k1 ++ [n] else getHooks L k1) := by
  cases k <;> cases k1 <;> simp [appendHook, getHooks]

theorem getHooks_collect_foldl (attrs : List HookAttr) :
    ∀ (L : LifecycleHooks) (k : HookKind),
      getHooks (attrs.foldl (fun acc a =>
          match a.hook_type with
          | some k2 => appendHook acc k2 a.name
          | none => acc) L) k =
        getHooks L k ++ declaredHooks attrs k := by
  induction attrs with
  | nil => intro L k; simp [declaredHooks]
  | cons a rest ih =>
    intro L k
    match ha : a.hook_type with
    | none => simp [ha, ih, declaredHooks, List.filterMap_cons]
    | some k2 =>
      by_cases hk : k2 = k
      · subst hk
        simp [ha, ih, declaredHooks, List.filterMap_cons, getHooks_appendHook]
      · simp [ha, ih, declaredHooks, List.filterMap_cons, getHooks_appendHook, hk]

theorem getHooks_merge_single (base : LifecycleHooks) (k : HookKind) :
    getHooks (mergeHooks emptyLifecycle base) k = getHooks base k := by
  cases k <;> simp [mergeHooks, emptyLifecycle, getHooks]

/-- Claim C8: for a controller type with one base class, each hook kind's list
is the base class's hooks followed by the hooks declared in the derived class
body, each in declaration order — so base-class hooks run before subclass
hooks. -/
theorem c8_hook_inheritance_order (base : LifecycleHooks) (attrs : List HookAttr)
    (k : HookKind) :
    getHooks (collectHooks [base] attrs) k = getHooks base k ++ declaredHooks attrs k := by
  unfold collectHooks
  rw [getHooks_collect_foldl attrs (List.foldl mergeHooks emptyLifecycle [base]) k]
  simp [getHooks_merge_single]

/-! ## Per-controller isolation (`ControllerMeta.__new__` lines 143-146)

Each evaluation of a controller class body assigns the new type its own
`APIRouter()` and its own fresh `WebSocketManager()`.  The collection of
per-controller connection registries is a map from controller type to
`WSState`; defining a controller installs a fresh empty registry for it, and
a manager operation mutates only its own controller's registry. -/

def ControllerSystem : Type := Nat → WSState

/-- `new_cls.websocket_manager = WebSocketManager()`: controller `c` gets its
own fresh, empty registry. -/
def defineController (sys : ControllerSystem) (c : Nat) : ControllerSystem :=
  fun j => if j = c then emptyWS else sys j

/-- A connection-manager operation performed on controller `c`'s manager. -/
def applyOpAt (sys : ControllerSystem) (c : Nat) (op : WSOp) : ControllerSystem :=
  fun j => if j = c then wsStep (sys j) op else sys j

/-- A sequence of operations, all on controller `c`'s manager. -/
def applyOpsAt (sys : ControllerSystem) (c : Nat) (ops : List WSOp) : ControllerSystem :=
  ops.foldl (fun s op => applyOpAt s c op) sys

theorem applyOpsAt_other (ops : List WSOp) :
    ∀ (sys : ControllerSystem) (c j : Nat), j ≠ c → applyOpsAt sys c ops j = sys j := by
  induction ops with
  | nil => intro sys c j hj; rfl
  | cons op rest ih =>
    intro sys c j hj
    have h1 : applyOpAt sys c op j = sys j := by
      unfold applyOpAt
      rw [if_neg hj]
    calc applyOpsAt sys c (op :: rest) j = applyOpsAt (applyOpAt sys c op) c rest j := rfl
      _ = applyOpAt sys c op j := ih (applyOpAt sys c op) c j hj
      _ = sys j := h1

/-- Claim C10: defining a controller gives it its own fresh empty connection
registry, and operations on one controller's manager never change another
controller's registry. -/
theorem c10_controller_isolation (sys : ControllerSystem) (c j : Nat) (ops : List WSOp)
    (hj : j ≠ c) :
    defineController sys c c = emptyWS ∧
    applyOpsAt (defineController sys c) c ops j = sys j := by
  constructor
  · unfold defineController
    rw [if_pos rfl]
  · rw [applyOpsAt_other ops (defineController sys c) c j hj]
    unfold defineController
    rw [if_neg hj]

/-- Witness for C10: controller 0 defined, a connect performed on it, and
controller 1's registry untouched. -/
theorem c10_witness :
    (1 : Nat) ≠ 0 ∧
    (defineController (fun _ => emptyWS) 0 0 = emptyWS ∧
      applyOpsAt (defineController (fun _ => emptyWS) 0) 0 [WSOp.connect "p" 5] 1 = emptyWS) :=
  ⟨by decide, c10_controller_isolation (fun _ => emptyWS) 0 1 [WSOp.connect "p" 5] (by decide)⟩
